import Mathlib

/-
  Verification of the `FeatureFormatter` class from `featureFormatter.py`
  (LettError/tools).  The formatter is an append-only text-assembly engine:
  it keeps an indent level, a line buffer, and a parallel "structure" outline,
  and offers specialised emitters for OpenType feature-file constructs.

  The embedding below translates each Python method into a Lean function over
  an explicit `FeatureFormatter` state record.  Python exceptions
  (IndexError on `lines[-1]` with an empty buffer, NameError on the unbound
  `ligatureName` in `positionBaseMark`) are modelled with `Except PyError`.
  Machine strings are Lean `String`s; Python `" ".join`, `n * s` string
  repetition and `os.path.join` are given as small explicit functions.
-/

set_option linter.unusedVariables false

/-- Python exceptions that the formatter code can actually raise. -/
inductive PyError where
  | indexError
  | nameError (unbound : String)
deriving DecidableEq, Repr

/-- Python `sep.join(xs)`: the elements of `xs` interleaved with `sep`. -/
def pyJoin (sep : String) : List String → String
  | [] => ""
  | [n] => n
  | n :: rest => n ++ sep ++ pyJoin sep rest

/-- Python `n * s` for a string `s` and a non-negative count: `s` repeated. -/
def strRepeat (s : String) : Nat → String
  | 0 => ""
  | n + 1 => s ++ strRepeat s n

/-- Python `s.find("#") != -1` for the one-character needle `"#"`:
the string contains the comment-marker character. -/
def containsHash (s : String) : Bool :=
  s.data.contains '#'

/-- Python truthiness of an optional string: `None` and `""` are falsy. -/
def truthy : Option String → Bool
  | none => false
  | some s => decide (s ≠ "")

/-- Python `"%s" % x` for `x` an optional string: `None` prints as `"None"`. -/
def pyStr : Option String → String
  | none => "None"
  | some s => s

/-- Python `os.path.join(a, b)` restricted to the slash convention used
here: an absolute `b` (leading slash) wins, an empty or slash-terminated
`a` is not given an extra separator. -/
def pathJoin (a b : String) : String :=
  if b.data.head? = some '/' then b
  else if a = "" then b
  else if a.data.getLast? = some '/' then a ++ b
  else a ++ "/" ++ b

/-- The mutable state of a `FeatureFormatter` instance, one field per
attribute assigned in `__init__`. -/
structure FeatureFormatter where
  dirName : String
  verbose : Bool
  flags : List (String × String)
  featurePrefix : String
  includeTimeStamp : Bool
  indentLevel : Int
  indentSpace : String
  lines : List String
  header : List String
  featureNames : List String
  structure' : List String
  currentFeature : Option String
  currentLookup : Option String
  currentTableName : Option String
deriving DecidableEq, Repr

namespace FeatureFormatter

/-- Python `self.indentLevel * self.indentSpace` (empty for a negative level). -/
def indentPrefix (self : FeatureFormatter) : String :=
  strRepeat self.indentSpace self.indentLevel.toNat

/-- Method `indent(steps)`: increase the indent level. -/
def indent (self : FeatureFormatter) (steps : Int) : FeatureFormatter :=
  { self with indentLevel := self.indentLevel + steps }

/-- Method `dedent(steps)`: decrease the indent level, clamped at 0 by
`self.indentLevel = max(self.indentLevel, 0)`. -/
def dedent (self : FeatureFormatter) (steps : Int) : FeatureFormatter :=
  { self with indentLevel := max (self.indentLevel - steps) 0 }

/-- Constructor `__init__`: all buffers empty, indent level 0, then `self.indent(startIndent)`. -/
def make (dirName featurePrefix : String) (startIndent : Int)
    (includeTimeStamp : Bool) (indentSpace : String) (verbose : Bool) :
    FeatureFormatter :=
  indent
    { dirName := dirName
      verbose := verbose
      flags := []
      featurePrefix := featurePrefix
      includeTimeStamp := includeTimeStamp
      indentLevel := 0
      indentSpace := indentSpace
      lines := []
      header := []
      featureNames := []
      structure' := []
      currentFeature := none
      currentLookup := none
      currentTableName := none }
    startIndent

/-- Method `addLine(*args)`: append `indent prefix + " ".join(args)` to the buffer. -/
def addLine (self : FeatureFormatter) (args : List String) : FeatureFormatter :=
  { self with lines := self.lines ++ [ indentPrefix self ++ pyJoin " " args] }

/-- Method `comment(*args)`: one comment line per argument. -/
def comment (self : FeatureFormatter) (args : List String) : FeatureFormatter :=
  args.foldl (fun st a => addLine st ["# " ++ a]) self

/-- Method `addStructure(*tags)`: append each tag, prefixed with the current indent,
to the structure outline. -/
def addStructure (self : FeatureFormatter) (tags : List String) : FeatureFormatter :=
  tags.foldl
    (fun st tag => { st with structure' := st.structure' ++ [ indentPrefix st ++ tag] })
    self

/-- Method `startFeature(name)`. -/
def startFeature (self : FeatureFormatter) (name : String) : FeatureFormatter :=
  let st := addStructure self ["feature " ++ name ++ " \x7b"]
  let st := addLine st ["feature " ++ name ++ " \x7b"]
  let st := { st with currentFeature := some name,
                      featureNames := st.featureNames ++ [name] }
  indent st 1

/-- Method `endFeature()`: dedent, close with the recorded name, clear it. -/
def endFeature (self : FeatureFormatter) : FeatureFormatter :=
  let st := dedent self 1
  let st := addLine st ["\x7d " ++ pyStr self.currentFeature ++ ";"]
  let st := addStructure st ["\x7d " ++ pyStr self.currentFeature ++ ";"]
  { st with currentFeature := none }

/-- Method `startLookup(name)`. -/
def startLookup (self : FeatureFormatter) (name : String) : FeatureFormatter :=
  let st := addStructure self ["lookup " ++ name]
  let st := addLine st ["lookup " ++ name ++ " \x7b"]
  let st := { st with currentLookup := some name }
  indent st 1

/-- Method `endLookup()`: note, no structure entry in the source. -/
def endLookup (self : FeatureFormatter) : FeatureFormatter :=
  let st := dedent self 1
  let st := addLine st ["\x7d " ++ pyStr self.currentLookup ++ ";"]
  { st with currentLookup := none }

/-- Method `title(*args)`: structure entry with the quoted joined title, two blank
lines, then a dash-bordered comment banner. -/
def title (self : FeatureFormatter) (args : List String) : FeatureFormatter :=
  let st := addStructure self ["'" ++ pyJoin " " args ++ "'"]
  let st := addLine st []
  let st := addLine st []
  let st := comment st [strRepeat "-" 50]
  let st := args.foldl (fun s a => comment s [s.indentSpace ++ a]) st
  comment st [strRepeat "-" 50]

/-- Method `lastLineIsComment()`: reads `self.lines[-1]` unconditionally, so it
raises IndexError on an empty buffer; otherwise tests `find("#") != -1`. -/
def lastLineIsComment (self : FeatureFormatter) : Except PyError Bool :=
  match self.lines.getLast? with
  | none => Except.error PyError.indexError
  | some l => Except.ok (containsHash l)

/-- Method `addLastLine(text)`: append to the previous line, unless that line is a
comment, in which case a fresh line is added. -/
def addLastLine (self : FeatureFormatter) (text : String) :
    Except PyError FeatureFormatter :=
  match lastLineIsComment self with
  | Except.error e => Except.error e
  | Except.ok true => Except.ok (addLine self [text])
  | Except.ok false =>
      Except.ok
        { self with
          lines := self.lines.dropLast ++ [((self.lines.getLast?).getD "") ++ text] }

/-- Method `_addSmallGroup(glyphNames, groupName)`: one line, with a `;` appended
through `addLastLine` only when a (truthy) group name was supplied. -/
def _addSmallGroup (self : FeatureFormatter) (glyphNames : List String)
    (groupName : Option String) : Except PyError FeatureFormatter :=
  let st :=
    if truthy groupName then
      let g := match groupName with | some s => s | none => ""
      let n := if g.front = '@' then g.drop 1 else g
      addLine self ["@" ++ n ++ " = [ " ++ pyJoin " " glyphNames ++ " ]"]
    else
      addLine self ["[ " ++ pyJoin " " glyphNames ++ " ]"]
  if truthy groupName then addLastLine st ";"
  else Except.ok st

/-- One iteration of the wrapping loop in `addGroup`: the accumulator is
`(state, c, lines, line)`; the current line is flushed when `c` already
exceeds `lineLength`, and the flushed-over name is appended uncounted. -/
def addGroupStep (lineLength : Int) :
    FeatureFormatter × Int × Nat × List String → String →
    FeatureFormatter × Int × Nat × List String
  | (st, c, nlines, line), n =>
    if c > lineLength then
      let st := addLine st [pyJoin " " line]
      let nlines := nlines + 1
      let st := if nlines % 10 = 0 then comment st ["line " ++ toString nlines] else st
      (st, 0, nlines, [n])
    else
      (st, c + (n.length : Int) + 1, nlines, line ++ [n])

/-- Python `list.sort()`: ascending stable sort of the names. -/
def sortStrings (l : List String) : List String :=
  l.insertionSort (fun a b => a ≤ b)

/-- Method `addGroup(glyphNames, groupName, lineLength, sort, lineNumbers, comment)`:
small groups go to `_addSmallGroup`; otherwise an opening bracket line, a
`total N names` comment, the greedy wrapping loop (with a `line N` comment
after every 10th flushed line), the final leftover line, and a closing
bracket line.  The `lineNumbers` and `comment` parameters are accepted but
never read, exactly as in the source. -/
def addGroup (self : FeatureFormatter) (glyphNames : List String)
    (groupName : Option String) (lineLength : Int) (sort : Bool)
    (lineNumbers : Bool) (commentFlag : Bool) : Except PyError FeatureFormatter :=
  if glyphNames.length < 5 then
    _addSmallGroup self glyphNames groupName
  else
    let parts := glyphNames
    let st :=
      if truthy groupName then
        let g := match groupName with | some s => s | none => ""
        let n := if g.front = '@' then g.drop 1 else g
        addLine self ["@" ++ n ++ " = ["]
      else
        addLine self ["["]
    let st := indent st 1
    let st := comment st ["total " ++ toString parts.length ++ " names"]
    let parts := if sort then sortStrings parts else parts
    let r := parts.foldl (addGroupStep lineLength) (st, 0, 0, [])
    let st := r.1
    let line := r.2.2.2
    let st := if line = [] then st else addLine st [pyJoin " " line]
    let st := dedent st 1
    if truthy groupName then Except.ok (addLine st ["];"])
    else Except.ok (addLine st ["]"])

/-- Method `include(fileName)`: emit the include statement, and when the joined path
does not exist append the advisory `comment("Note: missing file at", path)`.
The filesystem is abstracted as the oracle `fs`. -/
def includeFile (fs : String → Bool) (self : FeatureFormatter)
    (fileName : String) : FeatureFormatter :=
  let path := pathJoin self.dirName fileName
  let st := addLine self ["include(" ++ fileName ++ ");"]
  if fs path then st
  else comment st ["Note: missing file at", path]

/-- Method `positionBaseMark(name, pos, className)`: the body evaluates the unbound
name `ligatureName` (never defined in its scope), so every call raises a
NameError before `addLine` runs; no line is ever appended. -/
def positionBaseMark (self : FeatureFormatter) (name : String)
    (pos : Option (Int × Int)) (className : String) :
    Except PyError FeatureFormatter :=
  Except.error (PyError.nameError "ligatureName")

/-- Method `endMarks()`: dedent, then add the final `;` after the previous line
(reading `lines[-1]` unconditionally), or on its own line after a comment. -/
def endMarks (self : FeatureFormatter) : Except PyError FeatureFormatter :=
  let st := dedent self 1
  match lastLineIsComment st with
  | Except.error e => Except.error e
  | Except.ok true => Except.ok (addLine st [";"])
  | Except.ok false =>
      Except.ok
        { st with
          lines := st.lines.dropLast ++ [((st.lines.getLast?).getD "") ++ ";"] }

/-- Method `startTable(name)`: note, no structure entry in the source. -/
def startTable (self : FeatureFormatter) (name : String) : FeatureFormatter :=
  let st := addLine self ["table " ++ name ++ " \x7b"]
  let st := indent st 1
  { st with currentTableName := some name }

/-- Method `endTable()`: note, no structure entry in the source. -/
def endTable (self : FeatureFormatter) : FeatureFormatter :=
  let st := dedent self 1
  let st := addLine st ["\x7d " ++ pyStr self.currentTableName ++ ";"]
  { st with currentTableName := none }

end FeatureFormatter

/-- Abstract output of the wrapping loop: either a flushed body line (a chunk
of names) or a running `line N` comment. -/
inductive WrapItem where
  | chunk (names : List String)
  | lineComment (k : Nat)
deriving DecidableEq, Repr

/-- The wrapping rule actually implemented by `addGroup`'s loop, as a pure
recursion: each appended name adds `length + 1` to the running count `c`
except the name appended immediately after a flush; before appending a name,
if `c` already strictly exceeds the budget, the current line is flushed
(and after every 10th flush a `line N` comment is appended).  The trailing
leftover line is flushed at the end when non-empty. -/
def wrapItems (lineLength : Int) : Int → List String → Nat → List String → List WrapItem
  | _, line, _, [] => if line = [] then [] else [WrapItem.chunk line]
  | c, line, nlines, n :: rest =>
    if c > lineLength then
      if (nlines + 1) % 10 = 0 then
        WrapItem.chunk line :: WrapItem.lineComment (nlines + 1) ::
          wrapItems lineLength 0 [n] (nlines + 1) rest
      else
        WrapItem.chunk line :: wrapItems lineLength 0 [n] (nlines + 1) rest
    else
      wrapItems lineLength (c + (n.length : Int) + 1) (line ++ [n]) nlines rest

/-- How an abstract wrap item appears in the line buffer, at body indent. -/
def renderWrapItem (pre : String) : WrapItem → String
  | WrapItem.chunk l => pre ++ pyJoin " " l
  | WrapItem.lineComment k => pre ++ ("# " ++ ("line " ++ toString k))

/-- Replay a list of wrap items against a formatter state. -/
def emitWrapItems (st : FeatureFormatter) : List WrapItem → FeatureFormatter
  | [] => st
  | WrapItem.chunk l :: rest =>
      emitWrapItems (FeatureFormatter.addLine st [pyJoin " " l]) rest
  | WrapItem.lineComment k :: rest =>
      emitWrapItems (FeatureFormatter.comment st ["line " ++ toString k]) rest

/-- Wrapping rule exactly as claim C1 words it: names accumulate on the
current line until adding the next name's `length + 1` would exceed the
budget, at which point the line is flushed and a new line is started with
that name.  Defined only to compare against the code's behaviour. -/
def claimedGreedyWrap (lineLength : Int) : Int → List String → List String → List (List String)
  | _, line, [] => if line = [] then [] else [line]
  | c, line, n :: rest =>
    if c + (n.length : Int) + 1 > lineLength then
      line :: claimedGreedyWrap lineLength ((n.length : Int) + 1) [n] rest
    else
      claimedGreedyWrap lineLength (c + (n.length : Int) + 1) (line ++ [n]) rest

/-- One call in a sequence of `indent`/`dedent` invocations. -/
inductive IndentOp where
  | ind (steps : Int)
  | ded (steps : Int)
deriving DecidableEq, Repr

/-- Replay a sequence of `indent`/`dedent` calls against a formatter. -/
def applyIndentOps (self : FeatureFormatter) : List IndentOp → FeatureFormatter
  | [] => self
  | IndentOp.ind k :: rest => applyIndentOps (FeatureFormatter.indent self k) rest
  | IndentOp.ded k :: rest => applyIndentOps (FeatureFormatter.dedent self k) rest

/-- An `indent` call with non-negative steps (a `dedent` may have any steps,
since its result is clamped). -/
def opStepsNonneg : IndentOp → Bool
  | IndentOp.ind k => decide (0 ≤ k)
  | IndentOp.ded _ => true

section HelperLemmas

lemma containsHash_append (a b : String) :
    containsHash (a ++ b) = (containsHash a || containsHash b) := by
  simp [containsHash, String.data_append]

lemma containsHash_pyJoin (sep : String) (names : List String)
    (hsep : containsHash sep = false)
    (h : ∀ n ∈ names, containsHash n = false) :
    containsHash (pyJoin sep names) = false := by
  induction names with
  | nil => rfl
  | cons n rest ih =>
    cases rest with
    | nil => exact h n (by simp)
    | cons m t =>
      simp only [pyJoin, containsHash_append]
      rw [h n (by simp), hsep, ih (fun x hx => h x (by simp [hx]))]
      rfl

lemma containsHash_strRepeat (s : String) (n : Nat)
    (hs : containsHash s = false) :
    containsHash (strRepeat s n) = false := by
  induction n with
  | zero => rfl
  | succ k ih => simp [strRepeat, containsHash_append, hs, ih]

lemma containsHash_indentPrefix (st : FeatureFormatter)
    (hs : containsHash st.indentSpace = false) :
    containsHash ( FeatureFormatter.indentPrefix st) = false :=
  containsHash_strRepeat _ _ hs

lemma emitWrapItems_eq (items : List WrapItem) : ∀ st : FeatureFormatter,
    emitWrapItems st items
      = { st with lines := st.lines
            ++ items.map (renderWrapItem ( FeatureFormatter.indentPrefix st)) } := by
  induction items with
  | nil => intro st; simp [emitWrapItems]
  | cons it rest ih =>
    intro st
    cases it with
    | chunk l =>
      rw [emitWrapItems, ih]
      simp [FeatureFormatter.addLine, FeatureFormatter.indentPrefix,
        renderWrapItem, pyJoin]
    | lineComment k =>
      rw [emitWrapItems, ih]
      simp [FeatureFormatter.comment, FeatureFormatter.addLine,
        FeatureFormatter.indentPrefix, renderWrapItem, pyJoin]

lemma foldl_addGroupStep (L : Int) (parts : List String) :
    ∀ (st : FeatureFormatter) (c : Int) (nl : Nat) (line : List String),
    (if (parts.foldl (FeatureFormatter.addGroupStep L) (st, c, nl, line)).2.2.2 = []
      then (parts.foldl (FeatureFormatter.addGroupStep L) (st, c, nl, line)).1
      else FeatureFormatter.addLine
        (parts.foldl (FeatureFormatter.addGroupStep L) (st, c, nl, line)).1
        [pyJoin " " (parts.foldl (FeatureFormatter.addGroupStep L) (st, c, nl, line)).2.2.2])
    = emitWrapItems st (wrapItems L c line nl parts) := by
  induction parts with
  | nil =>
    intro st c nl line
    by_cases h : line = [] <;> simp [wrapItems, emitWrapItems, h]
  | cons n rest ih =>
    intro st c nl line
    rw [List.foldl_cons]
    by_cases h : c > L
    · by_cases hm : (nl + 1) % 10 = 0
      · rw [show FeatureFormatter.addGroupStep L (st, c, nl, line) n
            = (FeatureFormatter.comment
                (FeatureFormatter.addLine st [pyJoin " " line])
                ["line " ++ toString (nl + 1)], 0, nl + 1, [n]) by
            simp [FeatureFormatter.addGroupStep, h, hm]]
        rw [ih]
        simp [wrapItems, h, hm, emitWrapItems]
      · rw [show FeatureFormatter.addGroupStep L (st, c, nl, line) n
            = (FeatureFormatter.addLine st [pyJoin " " line], 0, nl + 1, [n]) by
            simp [FeatureFormatter.addGroupStep, h, hm]]
        rw [ih]
        simp [wrapItems, h, hm, emitWrapItems]
    · rw [show FeatureFormatter.addGroupStep L (st, c, nl, line) n
          = (st, c + (n.length : Int) + 1, nl, line ++ [n]) by
          simp [FeatureFormatter.addGroupStep, h]]
      rw [ih]
      simp [wrapItems, h]

lemma applyIndentOps_nonneg (ops : List IndentOp) :
    ∀ st : FeatureFormatter, 0 ≤ st.indentLevel →
      ops.all opStepsNonneg = true →
      0 ≤ (applyIndentOps st ops).indentLevel := by
  induction ops with
  | nil => intro st h _; exact h
  | cons op rest ih =>
    intro st h hall
    rw [List.all_cons, Bool.and_eq_true] at hall
    obtain ⟨h1, h2⟩ := hall
    cases op with
    | ind k =>
      have hk : 0 ≤ k := of_decide_eq_true h1
      refine ih _ ?_ h2
      show 0 ≤ st.indentLevel + k
      omega
    | ded k =>
      refine ih _ ?_ h2
      show 0 ≤ max (st.indentLevel - k) 0
      exact le_max_right _ _

lemma addLine_structure' (st : FeatureFormatter) (args : List String) :
    (FeatureFormatter.addLine st args).structure' = st.structure' := rfl

lemma comment_single_structure' (st : FeatureFormatter) (a : String) :
    (FeatureFormatter.comment st [a]).structure' = st.structure' := rfl

lemma titleFold_structure' (args : List String) :
    ∀ st : FeatureFormatter,
      (args.foldl (fun s a => FeatureFormatter.comment s [s.indentSpace ++ a]) st).structure'
        = st.structure' := by
  induction args with
  | nil => intro st; rfl
  | cons a rest ih =>
    intro st
    rw [List.foldl_cons, ih]
    rfl

end HelperLemmas

/-- C1 (amended).  For every list of 5 or more glyph names, `addGroup` emits a
multi-line bracketed block — opening line, a `total N names` comment, the
wrapped body, and a closing line — whose body lines are produced by greedy
accumulation in the following sense: each appended name adds `length + 1` to
a running count, except a name appended immediately after a flush, which is
not counted; before appending a name, if the running count already strictly
exceeds the line-length budget (regardless of the next name's length), the
current line is flushed and a new body line is started with that name, and
after every 10th flushed line a `line N` comment is inserted. -/
theorem addGroup_large_greedy_wrap
    (st : FeatureFormatter) (names : List String) (g : String) (L : Int)
    (ln cf : Bool)
    (h5 : 5 ≤ names.length) (hg : g ≠ "") (hat : g.front ≠ '@')
    (hlvl : 0 ≤ st.indentLevel) :
    FeatureFormatter.addGroup st names (some g) L false ln cf
      = Except.ok { st with lines := st.lines
                      ++ [ FeatureFormatter.indentPrefix st ++ ("@" ++ g ++ " = [")]
                      ++ [strRepeat st.indentSpace (st.indentLevel + 1).toNat
                            ++ ("# " ++ ("total " ++ toString names.length ++ " names"))]
                      ++ List.map (renderWrapItem (strRepeat st.indentSpace (st.indentLevel + 1).toNat)) (wrapItems L 0 [] 0 names)
                      ++ [ FeatureFormatter.indentPrefix st ++ "];"] }
    ∧ FeatureFormatter.addGroup st names none L false ln cf
      = Except.ok { st with lines := st.lines
                      ++ [ FeatureFormatter.indentPrefix st ++ "["]
                      ++ [strRepeat st.indentSpace (st.indentLevel + 1).toNat
                            ++ ("# " ++ ("total " ++ toString names.length ++ " names"))]
                      ++ List.map (renderWrapItem (strRepeat st.indentSpace (st.indentLevel + 1).toNat)) (wrapItems L 0 [] 0 names)
                      ++ [ FeatureFormatter.indentPrefix st ++ "]"] } := by
  have h5' : ¬ names.length < 5 := by omega
  have hmax : max (st.indentLevel + 1 - 1) 0 = st.indentLevel := by
    rw [Int.add_sub_cancel]; exact max_eq_left hlvl
  have hmax0 : max st.indentLevel 0 = st.indentLevel := max_eq_left hlvl
  have ht : truthy (some g) = true := by simp [truthy, hg]
  constructor
  · simp only [FeatureFormatter.addGroup]
    rw [if_neg h5']
    simp only [ht, if_true]
    rw [if_neg hat]
    rw [foldl_addGroupStep, emitWrapItems_eq]
    simp [FeatureFormatter.addLine, FeatureFormatter.comment,
      FeatureFormatter.indent, FeatureFormatter.dedent,
      FeatureFormatter.indentPrefix, pyJoin, hmax, hmax0, hlvl, List.append_assoc]
  · simp only [FeatureFormatter.addGroup]
    rw [if_neg h5']
    simp only [show truthy none = false from rfl, Bool.false_eq_true, if_false]
    rw [foldl_addGroupStep, emitWrapItems_eq]
    simp [FeatureFormatter.addLine, FeatureFormatter.comment,
      FeatureFormatter.indent, FeatureFormatter.dedent,
      FeatureFormatter.indentPrefix, pyJoin, hmax, hmax0, hlvl, List.append_assoc]

/-- C1 witness: the amended wrapping theorem applied to six names against a
freshly constructed formatter, with the result fully evaluated. -/
theorem addGroup_large_greedy_wrap_witness :
    5 ≤ (["one","two","three","four","five","six"] : List String).length
    ∧ ("G" : String) ≠ ""
    ∧ ("G" : String).front ≠ '@'
    ∧ 0 ≤ (FeatureFormatter.make "fea" "AT" 1 true " " false).indentLevel
    ∧ (FeatureFormatter.addGroup (FeatureFormatter.make "fea" "AT" 1 true " " false)
          ["one","two","three","four","five","six"] (some "G") 50 false true false
        = Except.ok
            { dirName := "fea", verbose := false, flags := [], featurePrefix := "AT",
              includeTimeStamp := true, indentLevel := 1, indentSpace := " ",
              lines := [" @G = [", "  # total 6 names", "  one two three four five six", " ];"],
              header := [], featureNames := [], structure' := [], currentFeature := none,
              currentLookup := none, currentTableName := none }
      ∧ FeatureFormatter.addGroup (FeatureFormatter.make "fea" "AT" 1 true " " false)
          ["one","two","three","four","five","six"] none 50 false true false
        = Except.ok
            { dirName := "fea", verbose := false, flags := [], featurePrefix := "AT",
              includeTimeStamp := true, indentLevel := 1, indentSpace := " ",
              lines := [" [", "  # total 6 names", "  one two three four five six", " ]"],
              header := [], featureNames := [], structure' := [], currentFeature := none,
              currentLookup := none, currentTableName := none }) :=
  ⟨by decide, by decide, by decide, by decide,
    addGroup_large_greedy_wrap (FeatureFormatter.make "fea" "AT" 1 true " " false)
      ["one","two","three","four","five","six"] "G" 50 true false
      (by decide) (by decide) (by decide) (by decide)⟩

/-- C1 counterexample: on five ten-character names with a budget of 50, the
code emits a single body line holding all five names (the accumulated count
44 never exceeds 50), while the rule as claimed — flush when adding the next
name's `length + 1` would exceed the budget — would split after four names
(44 + 11 > 50).  So the body lines are not produced by the claimed rule. -/
theorem addGroup_wrap_rule_counterexample :
    (FeatureFormatter.addGroup (FeatureFormatter.make "" "AT" 0 true "" false)
        ["aaaaaaaaaa","bbbbbbbbbb","cccccccccc","dddddddddd","eeeeeeeeee"]
        (some "G") 50 false true false).toOption.map (fun s => (s.lines.drop 2).dropLast)
      = some ["aaaaaaaaaa bbbbbbbbbb cccccccccc dddddddddd eeeeeeeeee"]
    ∧ (claimedGreedyWrap 50 0 []
        ["aaaaaaaaaa","bbbbbbbbbb","cccccccccc","dddddddddd","eeeeeeeeee"]).map (pyJoin " ")
      = ["aaaaaaaaaa bbbbbbbbbb cccccccccc dddddddddd", "eeeeeeeeee"]
    ∧ (FeatureFormatter.addGroup (FeatureFormatter.make "" "AT" 0 true "" false)
        ["aaaaaaaaaa","bbbbbbbbbb","cccccccccc","dddddddddd","eeeeeeeeee"]
        (some "G") 50 false true false).toOption.map (fun s => (s.lines.drop 2).dropLast)
      ≠ some ((claimedGreedyWrap 50 0 []
          ["aaaaaaaaaa","bbbbbbbbbb","cccccccccc","dddddddddd","eeeeeeeeee"]).map (pyJoin " ")) := by
  refine ⟨by decide, by decide, by decide⟩

/-- C2: for any sequence of `indent`/`dedent` calls (with non-negative steps,
as in every call site) applied to a freshly constructed formatter with a
non-negative starting indent, the indent level stays non-negative; and
`dedent` invoked at level 0 clamps the level to 0 — the operation is total,
it never raises. -/
theorem indent_level_nonneg
    (d p isp : String) (si : Int) (ts v : Bool) (ops : List IndentOp)
    (st : FeatureFormatter) (k : Int)
    (h0 : 0 ≤ si) (hops : ops.all opStepsNonneg = true)
    (hz : st.indentLevel = 0) (hk : 0 ≤ k) :
    0 ≤ (applyIndentOps (FeatureFormatter.make d p si ts isp v) ops).indentLevel
    ∧ (FeatureFormatter.dedent st k).indentLevel = 0 := by
  constructor
  · refine applyIndentOps_nonneg ops _ ?_ hops
    show (0:Int) ≤ 0 + si
    omega
  · show max (st.indentLevel - k) 0 = 0
    rw [hz]
    exact max_eq_right (by omega)

/-- C2 witness: a start indent of 2 followed by dedent 3, indent 1, dedent 5
keeps the level at 0, and a dedent by 7 at level 0 stays at 0. -/
theorem indent_level_nonneg_witness :
    (0:Int) ≤ 2
    ∧ ([IndentOp.ded 3, IndentOp.ind 1, IndentOp.ded 5].all opStepsNonneg = true)
    ∧ (FeatureFormatter.make "fea" "AT" 0 true " " false).indentLevel = 0
    ∧ (0:Int) ≤ 7
    ∧ (0 ≤ (applyIndentOps (FeatureFormatter.make "fea" "AT" 2 true " " false)
            [IndentOp.ded 3, IndentOp.ind 1, IndentOp.ded 5]).indentLevel
       ∧ (FeatureFormatter.dedent (FeatureFormatter.make "fea" "AT" 0 true " " false) 7).indentLevel = 0) :=
  ⟨by decide, by decide, by decide, by decide,
    indent_level_nonneg "fea" "AT" " " 2 true false
      [IndentOp.ded 3, IndentOp.ind 1, IndentOp.ded 5]
      (FeatureFormatter.make "fea" "AT" 0 true " " false) 7
      (by decide) (by decide) (by decide) (by decide)⟩

/-- C3: for every list of fewer than 5 glyph names whose names contain no
comment marker (with a marker-free indent unit and class name, as any real
glyph class has), `addGroup` with class name `g` emits the single line
`@g = [ names ];` — the terminator lands on the same line — and `addGroup`
with no class name emits the single line `[ names ]` with no terminator. -/
theorem addGroup_small_single_line
    (st : FeatureFormatter) (names : List String) (g : String) (L : Int)
    (srt ln cf : Bool)
    (h5 : names.length < 5)
    (hn : ∀ n ∈ names, containsHash n = false)
    (hs : containsHash st.indentSpace = false)
    (hg : g ≠ "") (hat : g.front ≠ '@') (hgh : containsHash g = false) :
    FeatureFormatter.addGroup st names (some g) L srt ln cf
      = Except.ok { st with lines := st.lines
                      ++ [ FeatureFormatter.indentPrefix st
                            ++ ("@" ++ g ++ " = [ " ++ pyJoin " " names ++ " ]") ++ ";"] }
    ∧ FeatureFormatter.addGroup st names none L srt ln cf
      = Except.ok { st with lines := st.lines
                      ++ [ FeatureFormatter.indentPrefix st
                            ++ ("[ " ++ pyJoin " " names ++ " ]")] } := by
  have ht : truthy (some g) = true := by simp [truthy, hg]
  have hsp : containsHash " " = false := by decide
  have hline : containsHash ( FeatureFormatter.indentPrefix st
      ++ ("@" ++ g ++ " = [ " ++ pyJoin " " names ++ " ]")) = false := by
    simp [containsHash_append, containsHash_indentPrefix st hs, hgh,
      containsHash_pyJoin " " names hsp hn,
      show containsHash "@" = false from by decide,
      show containsHash " = [ " = false from by decide,
      show containsHash " ]" = false from by decide]
  constructor
  · simp only [FeatureFormatter.addGroup, if_pos h5, FeatureFormatter._addSmallGroup,
      ht, if_true]
    rw [if_neg hat]
    have hlc : FeatureFormatter.lastLineIsComment
        (FeatureFormatter.addLine st ["@" ++ g ++ " = [ " ++ pyJoin " " names ++ " ]"])
        = Except.ok false := by
      simp [FeatureFormatter.lastLineIsComment, FeatureFormatter.addLine,
        List.getLast?_concat, pyJoin, hline]
    simp only [FeatureFormatter.addLastLine, hlc]
    simp [FeatureFormatter.addLine, List.dropLast_concat, List.getLast?_concat, pyJoin]
  · simp [FeatureFormatter.addGroup, if_pos h5, FeatureFormatter._addSmallGroup,
      truthy, FeatureFormatter.addLine, pyJoin]

/-- C3 witness: three names against a fresh formatter, both with class name
`G` and with none, results fully evaluated. -/
theorem addGroup_small_single_line_witness :
    (["a","b","c"] : List String).length < 5
    ∧ (∀ n ∈ (["a","b","c"] : List String), containsHash n = false)
    ∧ containsHash (FeatureFormatter.make "fea" "AT" 1 true " " false).indentSpace = false
    ∧ ("G" : String) ≠ ""
    ∧ ("G" : String).front ≠ '@'
    ∧ containsHash "G" = false
    ∧ (FeatureFormatter.addGroup (FeatureFormatter.make "fea" "AT" 1 true " " false)
          ["a","b","c"] (some "G") 50 false true false
        = Except.ok
            { dirName := "fea", verbose := false, flags := [], featurePrefix := "AT",
              includeTimeStamp := true, indentLevel := 1, indentSpace := " ",
              lines := [" @G = [ a b c ];"], header := [], featureNames := [],
              structure' := [], currentFeature := none, currentLookup := none,
              currentTableName := none }
      ∧ FeatureFormatter.addGroup (FeatureFormatter.make "fea" "AT" 1 true " " false)
          ["a","b","c"] none 50 false true false
        = Except.ok
            { dirName := "fea", verbose := false, flags := [], featurePrefix := "AT",
              includeTimeStamp := true, indentLevel := 1, indentSpace := " ",
              lines := [" [ a b c ]"], header := [], featureNames := [],
              structure' := [], currentFeature := none, currentLookup := none,
              currentTableName := none }) :=
  ⟨by decide, by decide, by decide, by decide, by decide, by decide,
    addGroup_small_single_line (FeatureFormatter.make "fea" "AT" 1 true " " false)
      ["a","b","c"] "G" 50 false true false
      (by decide) (by decide) (by decide) (by decide) (by decide) (by decide)⟩

/-- C4: calling `addLastLine x` right after a `comment` call appends `x` as a
fresh line (the comment line always carries the marker), while calling it
after a marker-free `addLine` call appends `x` directly onto that line with
no separator and adds no new line. -/
theorem addLastLine_comment_guard
    (st : FeatureFormatter) (a x : String) (args : List String)
    (hargs : ∀ t ∈ args, containsHash t = false)
    (hsp : containsHash st.indentSpace = false) :
    FeatureFormatter.addLastLine (FeatureFormatter.comment st [a]) x
      = Except.ok { st with lines := (st.lines
                      ++ [ FeatureFormatter.indentPrefix st ++ ("# " ++ a)])
                      ++ [ FeatureFormatter.indentPrefix st ++ x] }
    ∧ FeatureFormatter.addLastLine (FeatureFormatter.addLine st args) x
      = Except.ok { st with lines := st.lines
                      ++ [( FeatureFormatter.indentPrefix st ++ pyJoin " " args) ++ x] } := by
  have hws : containsHash " " = false := by decide
  constructor
  · have hcomment : FeatureFormatter.comment st [a]
        = FeatureFormatter.addLine st ["# " ++ a] := rfl
    have hlc : FeatureFormatter.lastLineIsComment
        (FeatureFormatter.addLine st ["# " ++ a]) = Except.ok true := by
      simp [FeatureFormatter.lastLineIsComment, FeatureFormatter.addLine,
        List.getLast?_concat, pyJoin, containsHash_append,
        show containsHash "# " = true from by decide]
    rw [hcomment]
    simp only [FeatureFormatter.addLastLine, hlc]
    simp [FeatureFormatter.addLine, FeatureFormatter.indentPrefix, pyJoin]
  · have hline : containsHash ( FeatureFormatter.indentPrefix st ++ pyJoin " " args)
        = false := by
      simp [containsHash_append, containsHash_indentPrefix st hsp,
        containsHash_pyJoin " " args hws hargs]
    have hlc : FeatureFormatter.lastLineIsComment (FeatureFormatter.addLine st args)
        = Except.ok false := by
      simp [FeatureFormatter.lastLineIsComment, FeatureFormatter.addLine,
        List.getLast?_concat, hline]
    simp only [FeatureFormatter.addLastLine, hlc]
    simp [FeatureFormatter.addLine, List.dropLast_concat, List.getLast?_concat, pyJoin]

/-- C4 witness: on a fresh formatter, `addLastLine ";"` after
`comment "note"` adds a fresh line, and after `addLine "sub a by b;"` it
glues the `";"` onto that line; results fully evaluated. -/
theorem addLastLine_comment_guard_witness :
    (∀ t ∈ (["sub","a","by","b;"] : List String), containsHash t = false)
    ∧ containsHash (FeatureFormatter.make "fea" "AT" 1 true " " false).indentSpace = false
    ∧ (FeatureFormatter.addLastLine
          (FeatureFormatter.comment (FeatureFormatter.make "fea" "AT" 1 true " " false) ["note"]) ";"
        = Except.ok
            { dirName := "fea", verbose := false, flags := [], featurePrefix := "AT",
              includeTimeStamp := true, indentLevel := 1, indentSpace := " ",
              lines := [" # note", " ;"], header := [], featureNames := [],
              structure' := [], currentFeature := none, currentLookup := none,
              currentTableName := none }
      ∧ FeatureFormatter.addLastLine
          (FeatureFormatter.addLine (FeatureFormatter.make "fea" "AT" 1 true " " false)
            ["sub","a","by","b;"]) ";"
        = Except.ok
            { dirName := "fea", verbose := false, flags := [], featurePrefix := "AT",
              includeTimeStamp := true, indentLevel := 1, indentSpace := " ",
              lines := [" sub a by b;;"], header := [], featureNames := [],
              structure' := [], currentFeature := none, currentLookup := none,
              currentTableName := none }) :=
  ⟨by decide, by decide,
    addLastLine_comment_guard (FeatureFormatter.make "fea" "AT" 1 true " " false)
      "note" ";" ["sub","a","by","b;"] (by decide) (by decide)⟩

/-- C5 (amended): `include(fileName)` is total (never raises); it appends the
include statement, plus — when the path does not exist in the output
directory — exactly TWO advisory comment lines, because
`comment("Note: missing file at", path)` puts each of its two arguments on
its own comment line; when the path exists, no advisory line is appended. -/
theorem include_advisory_lines (fs : String → Bool) (st : FeatureFormatter)
    (fileName : String) :
    FeatureFormatter.includeFile fs st fileName
      = { st with lines := (st.lines
              ++ [ FeatureFormatter.indentPrefix st ++ ("include(" ++ fileName ++ ");")])
              ++ (if fs (pathJoin st.dirName fileName) then []
                  else [ FeatureFormatter.indentPrefix st ++ ("# " ++ "Note: missing file at"),
                        FeatureFormatter.indentPrefix st
                          ++ ("# " ++ pathJoin st.dirName fileName)]) } := by
  by_cases h : fs (pathJoin st.dirName fileName)
  · simp [FeatureFormatter.includeFile, h, FeatureFormatter.addLine, pyJoin]
  · simp [FeatureFormatter.includeFile, h, FeatureFormatter.addLine,
      FeatureFormatter.comment, FeatureFormatter.indentPrefix, pyJoin,
      List.append_assoc]

/-- C5 counterexample: on a fresh formatter whose output directory lacks
`missing.fea`, `include` appends the include statement and TWO advisory
comment lines, not exactly one as claimed. -/
theorem include_single_advisory_counterexample :
    (FeatureFormatter.includeFile (fun _ => false)
        (FeatureFormatter.make "" "AT" 0 true "" false) "missing.fea").lines
      = ["include(missing.fea);", "# Note: missing file at", "# missing.fea"]
    ∧ ((FeatureFormatter.includeFile (fun _ => false)
        (FeatureFormatter.make "" "AT" 0 true "" false) "missing.fea").lines.filter
          (fun l => containsHash l)).length = 2 := by
  refine ⟨by decide, by decide⟩

/-- C6 (amended): the `lineNumbers` parameter of `addGroup` is accepted but
never read — the output is identical whether the flag is set or unset (the
running `line N` comment is emitted every 10th wrapped line regardless). -/
theorem lineNumbers_flag_ignored (st : FeatureFormatter) (names : List String)
    (gName : Option String) (L : Int) (srt cf : Bool) :
    FeatureFormatter.addGroup st names gName L srt true cf
      = FeatureFormatter.addGroup st names gName L srt false cf := rfl

/-- C6 counterexample: with `lineNumbers` unset (`false`), `addGroup` on
twenty one-character names with budget 0 still emits the `# line 10`
running comment, so the flag does not control the comment. -/
theorem lineNumbers_flag_counterexample :
    (FeatureFormatter.addGroup (FeatureFormatter.make "" "AT" 0 true "" false)
        ["a","b","c","d","e","f","g","h","i","j","k","l","m","n","o","p","q","r","s","t"]
        (some "G") 0 false false false).toOption.map
          (fun s => s.lines.contains "# line 10")
      = some true := by decide

/-- C7 (amended): `startFeature`, `startLookup` and `title` append a
structure-outline entry at the indent level the buffer had before the
operation; `endFeature` appends its entry at the level AFTER its dedent;
`endLookup`, `startTable` and `endTable` append no structure entry at all. -/
theorem structure_outline_entries (st : FeatureFormatter) (name : String)
    (args : List String) :
    (FeatureFormatter.startFeature st name).structure'
      = st.structure' ++ [ FeatureFormatter.indentPrefix st ++ ("feature " ++ name ++ " \x7b")]
    ∧ (FeatureFormatter.startLookup st name).structure'
      = st.structure' ++ [ FeatureFormatter.indentPrefix st ++ ("lookup " ++ name)]
    ∧ (FeatureFormatter.title st args).structure'
      = st.structure' ++ [ FeatureFormatter.indentPrefix st ++ ("'" ++ pyJoin " " args ++ "'")]
    ∧ (FeatureFormatter.endFeature st).structure'
      = st.structure' ++ [strRepeat st.indentSpace (max (st.indentLevel - 1) 0).toNat
            ++ ("\x7d " ++ pyStr st.currentFeature ++ ";")]
    ∧ (FeatureFormatter.endLookup st).structure' = st.structure'
    ∧ (FeatureFormatter.startTable st name).structure' = st.structure'
    ∧ (FeatureFormatter.endTable st).structure' = st.structure' := by
  refine ⟨?_, ?_, ?_, ?_, rfl, rfl, rfl⟩
  · simp [FeatureFormatter.startFeature, FeatureFormatter.addStructure,
      FeatureFormatter.addLine, FeatureFormatter.indent, FeatureFormatter.indentPrefix]
  · simp [FeatureFormatter.startLookup, FeatureFormatter.addStructure,
      FeatureFormatter.addLine, FeatureFormatter.indent, FeatureFormatter.indentPrefix]
  · simp [FeatureFormatter.title, comment_single_structure', titleFold_structure',
      addLine_structure', FeatureFormatter.addStructure, FeatureFormatter.indentPrefix]
  · simp [FeatureFormatter.endFeature, FeatureFormatter.dedent,
      FeatureFormatter.addLine, FeatureFormatter.addStructure,
      FeatureFormatter.indentPrefix]

/-- C7 counterexample: on a fresh formatter, `startTable`, `endTable` and
`endLookup` leave the structure outline empty — contrary to the claim that
every start/end block operation appends an entry. -/
theorem structure_entry_counterexample :
    (FeatureFormatter.startTable (FeatureFormatter.make "fea" "AT" 1 true " " false)
        "GDEF").structure' = []
    ∧ (FeatureFormatter.endTable
        (FeatureFormatter.make "fea" "AT" 1 true " " false)).structure' = []
    ∧ (FeatureFormatter.endLookup
        (FeatureFormatter.make "fea" "AT" 1 true " " false)).structure' = [] := by
  refine ⟨by decide, by decide, by decide⟩

/-- C8: `endFeature` with no feature open (current feature name unset) is
permitted — it is total, dedents (clamped at 0), and emits a closing
statement `} None;` that renders the unset name. -/
theorem endFeature_without_start (st : FeatureFormatter)
    (h : st.currentFeature = none) :
    FeatureFormatter.endFeature st
      = { st with
            indentLevel := max (st.indentLevel - 1) 0,
            lines := st.lines ++ [strRepeat st.indentSpace (max (st.indentLevel - 1) 0).toNat
                ++ ("\x7d " ++ "None" ++ ";")],
            structure' := st.structure' ++ [strRepeat st.indentSpace (max (st.indentLevel - 1) 0).toNat
                ++ ("\x7d " ++ "None" ++ ";")],
            currentFeature := none } := by
  simp [FeatureFormatter.endFeature, FeatureFormatter.dedent, FeatureFormatter.addLine,
    FeatureFormatter.addStructure, FeatureFormatter.indentPrefix, pyStr, h, pyJoin]

/-- C8 witness: `endFeature` on a freshly constructed formatter (no feature
ever opened) dedents from 1 to 0 and emits `} None;`. -/
theorem endFeature_without_start_witness :
    (FeatureFormatter.make "fea" "AT" 1 true " " false).currentFeature = none
    ∧ FeatureFormatter.endFeature (FeatureFormatter.make "fea" "AT" 1 true " " false)
      = { dirName := "fea", verbose := false, flags := [], featurePrefix := "AT",
          includeTimeStamp := true, indentLevel := 0, indentSpace := " ",
          lines := ["\x7d None;"], header := [], featureNames := [],
          structure' := ["\x7d None;"], currentFeature := none, currentLookup := none,
          currentTableName := none } :=
  ⟨rfl, (endFeature_without_start (FeatureFormatter.make "fea" "AT" 1 true " " false)
      rfl).trans (by decide)⟩

/-- C9: `positionBaseMark` formats `"position base %s " % ligatureName`, but
`ligatureName` is never defined in its scope, so for every formatter state
and argument tuple the call raises a NameError before `addLine` runs and
appends no line to the buffer. -/
theorem positionBaseMark_raises (st : FeatureFormatter) (name : String)
    (pos : Option (Int × Int)) (className : String) :
    FeatureFormatter.positionBaseMark st name pos className
      = Except.error (PyError.nameError "ligatureName") := rfl

/-- C10: `addLastLine`, `endMarks` and `lastLineIsComment` all read
`self.lines[-1]` unconditionally, so on an empty line buffer (for example
immediately after construction) each raises IndexError. -/
theorem empty_buffer_index_error (st : FeatureFormatter) (x : String)
    (h : st.lines = []) :
    FeatureFormatter.addLastLine st x = Except.error PyError.indexError
    ∧ FeatureFormatter.endMarks st = Except.error PyError.indexError
    ∧ FeatureFormatter.lastLineIsComment st = Except.error PyError.indexError := by
  have h1 : FeatureFormatter.lastLineIsComment st = Except.error PyError.indexError := by
    simp [FeatureFormatter.lastLineIsComment, h]
  have h2 : FeatureFormatter.lastLineIsComment (FeatureFormatter.dedent st 1)
      = Except.error PyError.indexError := by
    simp [FeatureFormatter.lastLineIsComment, FeatureFormatter.dedent, h]
  refine ⟨?_, ?_, h1⟩
  · simp only [FeatureFormatter.addLastLine, h1]
  · simp only [FeatureFormatter.endMarks, h2]

/-- C10 witness: a freshly constructed formatter has an empty line buffer,
and all three operations raise IndexError on it. -/
theorem empty_buffer_index_error_witness :
    (FeatureFormatter.make "fea" "AT" 1 true " " false).lines = []
    ∧ (FeatureFormatter.addLastLine (FeatureFormatter.make "fea" "AT" 1 true " " false) "!"
          = Except.error PyError.indexError
       ∧ FeatureFormatter.endMarks (FeatureFormatter.make "fea" "AT" 1 true " " false)
          = Except.error PyError.indexError
       ∧ FeatureFormatter.lastLineIsComment (FeatureFormatter.make "fea" "AT" 1 true " " false)
          = Except.error PyError.indexError) :=
  ⟨rfl, empty_buffer_index_error (FeatureFormatter.make "fea" "AT" 1 true " " false) "!" rfl⟩
